import Mathlib

/-!
Verification of the scraping core of `app/parse.py` (e-commerce selenium
scraper) against its natural-language specification.

The embedding is shallow: each Python function of the scraping core is
translated to a Lean function over an explicit model of the rendered DOM.
Selenium element lookups that may raise `NoSuchElementException` are
modelled as `Option`/`Except` values; Python exceptions propagating out of
an expression are modelled by the `Except` monad.
-/

namespace Scraper

/-- Error raised while extracting fields of one product element, mirroring
the Python exceptions that can escape `parse_single_product`:
`NoSuchElementException` from `find_element` (with the CSS selector that
failed), `ValueError` from `float(...)` / `int(...)` (with the offending
text), and `IndexError` from `.split()[0]` on an empty token list. -/
inductive ExtractionError where
  | elementNotFound (selector : String)
  | valueError (text : String)
  | indexError
  deriving DecidableEq, Repr

/-- The `Product` dataclass of `parse.py`. Python's `float` price is
modelled as a rational number; `rating` is a count (`len` of a list) and
hence a `Nat`; `num_of_reviews` comes from Python `int(...)`. -/
structure Product where
  title : String
  description : String
  price : ℚ
  rating : Nat
  num_of_reviews : Int
  deriving DecidableEq, Repr

/-- `PRODUCT_FIELDS = [field.name for field in fields(Product)]`: the five
dataclass field names in declaration order. -/
def PRODUCT_FIELDS : List String :=
  ["title", "description", "price", "rating", "num_of_reviews"]

/-- Model of one rendered `.thumbnail` product element, recording what each
sub-element lookup performed by `parse_single_product` would observe:
`none` means the sub-element is absent (`find_element` raises).
`titleEl` carries the `title` attribute of the `.title` sub-element (the
`title` DOM property always yields a string), `descriptionEl` and
`priceEl` and `reviewsEl` carry rendered text, and `starCount` is the
number of `.ratings .ws-icon-star` elements (`find_elements` cannot
fail, it returns a possibly empty list). -/
structure ItemElement where
  titleEl : Option String
  descriptionEl : Option String
  priceEl : Option String
  starCount : Nat
  reviewsEl : Option String
  deriving DecidableEq, Repr

instance {ε α : Type} [DecidableEq ε] [DecidableEq α] : DecidableEq (Except ε α) := fun x y =>
  match x, y with
  | Except.ok a, Except.ok b =>
      if h : a = b then Decidable.isTrue (congrArg Except.ok h)
      else Decidable.isFalse (fun hc => h (Except.ok.inj hc))
  | Except.error a, Except.error b =>
      if h : a = b then Decidable.isTrue (congrArg Except.error h)
      else Decidable.isFalse (fun hc => h (Except.error.inj hc))
  | Except.ok _, Except.error _ => Decidable.isFalse (fun hc => Except.noConfusion hc)
  | Except.error _, Except.ok _ => Decidable.isFalse (fun hc => Except.noConfusion hc)

/-- Numeric value of a list of decimal digit characters, most significant
first (the usual positional reading used by Python's numeral parsing). -/
def digitsVal (l : List Char) : Nat :=
  l.foldl (fun a c => a * 10 + (c.toNat - 48)) 0

/-- Model of Python `str.strip()` / the whitespace stripping `float` and
`int` perform on their string argument: drop whitespace characters from
both ends of the character list. -/
def pyStrip (l : List Char) : List Char :=
  ((l.dropWhile Char.isWhitespace).reverse.dropWhile Char.isWhitespace).reverse

/-- Model of the one `str.replace` call the source makes,
`.replace("$", "")`: every occurrence of the one-character substring `$`
is replaced by the empty string, which deletes every `$` character. -/
def removeDollar (s : String) : String :=
  String.mk (s.toList.filter (fun c => c ≠ '$'))

/-- Model of Python `float(s)` restricted to plain decimal numerals: strip
surrounding whitespace, allow one optional sign, then digits with at most
one decimal point and at least one digit. Returns `none` where Python
raises `ValueError`. (Python additionally accepts exponents, `inf`/`nan`
and digit underscores; no such text occurs in the scraped pages or in the
spec's scenarios, and every string rejected here with those shapes would
only make *more* inputs parse, never fewer.) -/
def pyFloat (s : String) : Option ℚ :=
  let cs := pyStrip s.toList
  let signed : Int × List Char :=
    match cs with
    | '-' :: rest => (-1, rest)
    | '+' :: rest => (1, rest)
    | _ => (1, cs)
  let sign := signed.1
  let body := signed.2
  let ip := body.takeWhile Char.isDigit
  let rest := body.dropWhile Char.isDigit
  match rest with
  | [] =>
      if ip.isEmpty then none
      else some (mkRat (sign * (digitsVal ip : Int)) 1)
  | '.' :: fp =>
      if fp.all Char.isDigit ∧ ¬(ip.isEmpty ∧ fp.isEmpty) then
        some (mkRat (sign * ((digitsVal ip * 10 ^ fp.length + digitsVal fp : Nat) : Int))
          (10 ^ fp.length))
      else none
  | _ => none

/-- Model of Python `int(s)` on a string: strip surrounding whitespace,
optional sign, then one or more decimal digits; `none` where Python raises
`ValueError`. -/
def pyInt (s : String) : Option Int :=
  let cs := pyStrip s.toList
  let signed : Int × List Char :=
    match cs with
    | '-' :: rest => (-1, rest)
    | '+' :: rest => (1, rest)
    | _ => (1, cs)
  let sign := signed.1
  let body := signed.2
  if ¬body.isEmpty ∧ body.all Char.isDigit then
    some (sign * (digitsVal body : Int))
  else none

/-- One right-to-left pass grouping consecutive non-whitespace characters;
a whitespace character always starts a fresh (possibly empty) chunk. -/
def wsSplit (l : List Char) : List (List Char) :=
  l.foldr
    (fun c acc =>
      if c.isWhitespace then [] :: acc
      else
        match acc with
        | [] => [[c]]
        | t :: ts => (c :: t) :: ts)
    []

/-- Model of Python `s.split()` with no argument: the maximal runs of
non-whitespace characters, so never any empty token; an empty or
whitespace-only string yields the empty list. -/
def pySplit (s : String) : List String :=
  ((wsSplit s.toList).filter (fun t => ¬t.isEmpty)).map (fun t => String.mk t)

/-- `parse_single_product` (parse.py lines 53-70), field by field in the
order Python evaluates the constructor's keyword arguments:
title attribute of `.title`, text of `.description`,
`float(text(.price).replace("$", ""))`, `len` of the star markers, and
`int(text(.ratings > p.float-end).split()[0])`. Any exception aborts the
whole construction: no `Product` value exists on the error path. -/
def parse_single_product (e : ItemElement) : Except ExtractionError Product := do
  let title ← match e.titleEl with
    | some t => Except.ok t
    | none => Except.error (ExtractionError.elementNotFound ".title")
  let description ← match e.descriptionEl with
    | some d => Except.ok d
    | none => Except.error (ExtractionError.elementNotFound ".description")
  let priceText ← match e.priceEl with
    | some p => Except.ok p
    | none => Except.error (ExtractionError.elementNotFound ".price")
  let price ← match pyFloat (removeDollar priceText) with
    | some q => Except.ok q
    | none => Except.error (ExtractionError.valueError (removeDollar priceText))
  let rating := e.starCount
  let reviewsText ← match e.reviewsEl with
    | some r => Except.ok r
    | none => Except.error (ExtractionError.elementNotFound ".ratings > p.float-end")
  let tok ← match (pySplit reviewsText).head? with
    | some t => Except.ok t
    | none => Except.error ExtractionError.indexError
  let n ← match pyInt tok with
    | some n => Except.ok n
    | none => Except.error (ExtractionError.valueError tok)
  Except.ok ⟨title, description, price, rating, n⟩

/-- `get_single_page_products` (parse.py lines 73-80): a list comprehension
applying `parse_single_product` to every `.thumbnail` element of the
current view. A Python list comprehension has no exception handler, so the
first exception aborts the whole comprehension; `List.mapM` in the
`Except` monad has exactly this left-to-right first-error semantics. -/
def get_single_page_products (items : List ItemElement) :
    Except ExtractionError (List Product) :=
  items.mapM parse_single_product

/-- The scenario-A item: title attribute `Widget`, description `A widget.`,
price text `$19.99`, three star markers, reviews text `12 reviews`. -/
def widgetItem : ItemElement :=
  ⟨some "Widget", some "A widget.", some "$19.99", 3, some "12 reviews"⟩

/-- The product scenario A expects; `mkRat 1999 100` is the rational 19.99. -/
def widgetProduct : Product := ⟨"Widget", "A widget.", mkRat 1999 100, 3, 12⟩

/-- An item whose price text `$abc` leaves the non-numeric remainder `abc`
after stripping the currency symbol, so `float` raises `ValueError`. -/
def badPriceItem : ItemElement :=
  ⟨some "Gadget", some "A gadget.", some "$abc", 2, some "7 reviews"⟩

/-- An item whose reviews text is a single space: `split()` yields no
token at all, so `[0]` raises `IndexError`. -/
def blankReviewsItem : ItemElement :=
  ⟨some "T", some "D", some "$1", 0, some " "⟩

/-- A CSV cell as handed to `csv.writer`: `astuple(product)` produces two
Python strings, one float and two ints per record. -/
inductive CsvValue where
  | str (s : String)
  | float (q : ℚ)
  | int (n : Int)
  deriving DecidableEq, Repr

/-- `astuple(product)`: the five field values in dataclass declaration
order. -/
def astuple (p : Product) : List CsvValue :=
  [CsvValue.str p.title, CsvValue.str p.description, CsvValue.float p.price,
   CsvValue.int (p.rating : Int), CsvValue.int p.num_of_reviews]

/-- `write_products_to_csv` (parse.py lines 83-87), modelled at row level:
`writer.writerow(PRODUCT_FIELDS)` emits the header row, then
`writer.writerows([astuple(product) for product in products])` emits one
row per product in list order. -/
def write_products_to_csv (products : List Product) : List (List CsvValue) :=
  (PRODUCT_FIELDS.map CsvValue.str) :: products.map astuple

/-- The header row as `csv.writer` serialises it: the field names joined
by commas (none of the five names needs CSV quoting). -/
def headerLine : String := String.intercalate "," PRODUCT_FIELDS

/-- Whether one iteration of the pagination `while True` loop breaks out,
given what `find_element(pagination_selector)` observed: `none` models
`NoSuchElementException` (caught, `break`); a found button whose computed
`display` is the string `none` triggers the explicit
`raise NoSuchElementException`, caught by the same handler (`break`); any
other display value means the button is clicked and the loop continues. -/
def stopsLoop (o : Option String) : Bool :=
  match o with
  | none => true
  | some d => d == "none"

/-- The pagination loop of `scrape_products` (parse.py lines 102-122),
run from a state in which `c` clicks have already been dispatched.
`obs k` is what the `find_element` of iteration `k` observes (the page
state after `k` clicks). Returns `some total` when the loop breaks within
`fuel` further iterations, having dispatched `total` clicks in all, and
`none` when the fuel is exhausted first — the Python loop would still be
running at that point. -/
def loopAux (obs : Nat → Option String) : Nat → Nat → Option Nat
  | _, 0 => none
  | c, fuel + 1 =>
      if stopsLoop (obs c) then some c else loopAux obs (c + 1) fuel

/-- The full pagination loop, started before any click. -/
def paginationClicks (obs : Nat → Option String) (fuel : Nat) : Option Nat :=
  loopAux obs 0 fuel

/-- One category as configured by a `scrape_products` call: the entry-link
CSS selector, the output CSV name and the optional pagination selector. -/
structure CategorySpec where
  selector : String
  filename : String
  paginationSelector : Option String

/-- The rendered site as one category sees it after its entry link is
clicked: whether `find_element(category_selector)` succeeds, what the
pagination-button lookup observes after each number of clicks, and which
`.thumbnail` items the view holds after each number of clicks. -/
structure CategoryPage where
  linkPresent : Bool
  moreObs : Nat → Option String
  itemsAfter : Nat → List ItemElement

/-- The browser-visible world of one run: whether the cookie-consent
button exists, and the per-category page behaviour keyed by the
category's entry selector. -/
structure World where
  cookieButtonPresent : Bool
  pages : String → CategoryPage

/-- An error that escapes `scrape_products` and aborts the run:
`NoSuchElementException` from the category entry lookup (uncaught, hence
fatal), any extraction exception escaping the harvest comprehension, or
`fuelExhausted` — the marker that our finite observation window ended
while the pagination loop was still running (the Python loop would not
have returned, written, or reached any later category). -/
inductive RunError where
  | categoryNotFound (selector : String)
  | extraction (e : ExtractionError)
  | fuelExhausted
  deriving DecidableEq, Repr

/-- The number of pagination clicks a category's processing dispatches:
none at all when no pagination selector is configured (the loop is
skipped), otherwise the loop's total. -/
def clicksFor (w : World) (fuel : Nat) (s : CategorySpec) : Option Nat :=
  match s.paginationSelector with
  | none => some 0
  | some _ => paginationClicks (w.pages s.selector).moreObs fuel

/-- `scrape_products` (parse.py lines 90-126): locate and click the
category entry link (uncaught `NoSuchElementException` if absent), run
the pagination loop when a pagination selector is configured, harvest the
now-current view once, and return the products. The CSV write it performs
on success is accounted for in `runCategories`. -/
def scrape_products (w : World) (fuel : Nat) (s : CategorySpec) :
    Except RunError (List Product) :=
  if (w.pages s.selector).linkPresent then
    match clicksFor w fuel s with
    | none => Except.error RunError.fuelExhausted
    | some clicks =>
        match get_single_page_products ((w.pages s.selector).itemsAfter clicks) with
        | Except.error err => Except.error (RunError.extraction err)
        | Except.ok ps => Except.ok ps
  else Except.error (RunError.categoryNotFound s.selector)

/-- `accept_cookies` (parse.py lines 129-138): look for the consent
button and click it; `NoSuchElementException` is caught and logged, so
the function never raises and the run continues either way. The returned
Bool records whether a click happened (observable only in the log). -/
def accept_cookies (w : World) : Except RunError Bool :=
  Except.ok w.cookieButtonPresent

/-- Sequential category processing: each successful category immediately
appends its CSV file (name and rows) to the file-system log before the
next category starts; the first escaping error aborts the run, keeping
every earlier write intact and performing no further ones. -/
def runCategories (w : World) (fuel : Nat) :
    List CategorySpec → List (String × List (List CsvValue)) × Option RunError
  | [] => ([], none)
  | s :: rest =>
      match scrape_products w fuel s with
      | Except.error err => ([], some err)
      | Except.ok ps =>
          let r := runCategories w fuel rest
          ((s.filename, write_products_to_csv ps) :: r.1, r.2)

/-- The six hardcoded `scrape_products` calls of `get_all_products`
(parse.py lines 141-183), as the declaration-ordered CategorySpec list. -/
def categorySpecs : List CategorySpec :=
  [⟨"#side-menu a", "home.csv", none⟩,
   ⟨"#side-menu li:nth-of-type(2) a", "computers.csv", none⟩,
   ⟨"#side-menu li:nth-of-type(2) ul a", "laptops.csv", some ".col-lg-9 > a"⟩,
   ⟨"#side-menu .nav-second-level li:nth-child(2) a", "tablets.csv", some ".col-lg-9 > a"⟩,
   ⟨"#side-menu li:nth-of-type(3) a", "phones.csv", none⟩,
   ⟨"#side-menu li:nth-of-type(3) ul a", "touch.csv", some ".col-lg-9 > a"⟩]

/-- `get_all_products` (parse.py lines 141-183): cookie pre-pass, then the
six categories in declaration order. The value is the pair of the written
files (in write order) and the error that aborted the run, if any; the
Python function itself returns `None` — its products reach the outside
world only through these per-category writes. -/
def get_all_products (w : World) (fuel : Nat) :
    List (String × List (List CsvValue)) × Option RunError :=
  match accept_cookies w with
  | Except.error err => ([], some err)
  | Except.ok _ => runCategories w fuel categorySpecs

/-- The product sequence one category's processing extracts, when it
terminates and harvests successfully. -/
def categoryHarvest (w : World) (fuel : Nat) (s : CategorySpec) :
    Option (List Product) :=
  match clicksFor w fuel s with
  | none => none
  | some k => (get_single_page_products ((w.pages s.selector).itemsAfter k)).toOption

/-- A category's processing step succeeds: its entry link is present, its
pagination loop stops within the observation window, and every item of
the final view extracts. -/
def CategoryOk (w : World) (fuel : Nat) (s : CategorySpec) : Prop :=
  (w.pages s.selector).linkPresent = true ∧ (categoryHarvest w fuel s).isSome = true

instance (w : World) (fuel : Nat) (s : CategorySpec) : Decidable (CategoryOk w fuel s) :=
  inferInstanceAs
    (Decidable
      ((w.pages s.selector).linkPresent = true ∧ (categoryHarvest w fuel s).isSome = true))

/-- The products of a successful category (defaulting to `[]` when the
category fails, a case excluded wherever this is used). -/
def categoryProducts (w : World) (fuel : Nat) (s : CategorySpec) : List Product :=
  (categoryHarvest w fuel s).getD []

/-- The RunResult of the spec: the mapping from each declared category's
output name to the ordered product sequence extracted for it. -/
def runResult (w : World) (fuel : Nat) : List (String × List Product) :=
  categorySpecs.map (fun s => (s.filename, categoryProducts w fuel s))

/-- A page on which every lookup succeeds, the pagination affordance is
absent from the first check on, and one well-formed item is rendered. -/
def demoPage : CategoryPage := ⟨true, fun _ => none, fun _ => [widgetItem]⟩

/-- A world whose six category pages all behave like `demoPage`. -/
def demoWorld : World := ⟨true, fun _ => demoPage⟩

/-- A page whose entry link is missing. -/
def noLinkPage : CategoryPage := ⟨false, fun _ => none, fun _ => []⟩

/-- A world in which no category entry link can be found. -/
def noLinkWorld : World := ⟨true, fun _ => noLinkPage⟩

/-- A world in which the first category (entry selector `#side-menu a`)
works like `demoPage` but every later category's entry link is missing,
so the run fails fatally after the first file is written. -/
def mixedWorld : World :=
  ⟨true, fun sel => if sel = "#side-menu a" then demoPage else noLinkPage⟩

/-- Scenario C observations: the pagination affordance is found with a
visible display on iterations 0 and 1 and is absent from iteration 2 on. -/
def twiceThenGone : Nat → Option String :=
  fun k => if k < 2 then some "block" else none

lemma except_isOk_false_iff {ε α : Type} (r : Except ε α) :
    r.isOk = false ↔ ∃ e, r = Except.error e := by
  cases r <;> simp [Except.isOk, Except.toBool]

lemma except_ne_ok_of_isOk_false {ε α : Type} {r : Except ε α}
    (h : r.isOk = false) (a : α) : r ≠ Except.ok a := by
  cases r <;> simp_all [Except.isOk, Except.toBool]

/-- Unfolding of the harvest comprehension on a non-empty page: the first
item is parsed first and any exception short-circuits the rest. -/
lemma harvest_cons (a : ItemElement) (l : List ItemElement) :
    get_single_page_products (a :: l) =
      (match parse_single_product a with
       | Except.error err => Except.error err
       | Except.ok p =>
         (match get_single_page_products l with
          | Except.error err => Except.error err
          | Except.ok ps => Except.ok (p :: ps))) := by
  have h1 : get_single_page_products (a :: l) =
      parse_single_product a >>= fun p =>
        get_single_page_products l >>= fun ps => pure (p :: ps) :=
    List.mapM_cons parse_single_product
  rw [h1]
  cases parse_single_product a with
  | error err => rfl
  | ok p =>
      cases get_single_page_products l with
      | error err => rfl
      | ok ps => rfl

/-- If every item of the page parses, the comprehension returns exactly the
parsed products, in page order. -/
lemma mapM_parse_all_ok (items : List ItemElement)
    (h : ∀ i ∈ items, (parse_single_product i).isOk = true) :
    get_single_page_products items =
      Except.ok (items.filterMap (fun i => (parse_single_product i).toOption)) := by
  induction items with
  | nil => rfl
  | cons a l ih =>
      have ha := h a (List.mem_cons_self a l)
      obtain ⟨p, hp⟩ : ∃ p, parse_single_product a = Except.ok p := by
        cases hpa : parse_single_product a with
        | ok p => exact ⟨p, rfl⟩
        | error e => rw [hpa] at ha; exact absurd ha (by simp [Except.isOk, Except.toBool])
      have ih2 := ih (fun i hi => h i (List.mem_cons_of_mem a hi))
      rw [harvest_cons, hp, ih2, List.filterMap_cons]
      simp [hp, Except.toOption]

/-- If some item of the page fails to parse, the whole comprehension
raises: the result is an error, never a shorter list. -/
lemma mapM_parse_fails {e : ItemElement} {items : List ItemElement}
    (hmem : e ∈ items) (hfail : (parse_single_product e).isOk = false) :
    (get_single_page_products items).isOk = false := by
  induction items with
  | nil => cases hmem
  | cons a l ih =>
      rw [harvest_cons]
      rcases List.mem_cons.mp hmem with rfl | hmem2
      · obtain ⟨err, herr⟩ := (except_isOk_false_iff _).mp hfail
        rw [herr]
        rfl
      · cases hpa : parse_single_product a with
        | error err => rfl
        | ok p =>
            have ih2 := ih hmem2
            obtain ⟨err, herr⟩ := (except_isOk_false_iff _).mp ih2
            rw [herr]
            rfl

/-- A malformed price text makes the whole item extraction fail: the
evaluation of the `Product(...)` constructor call raises before any
`Product` value exists. -/
lemma ok_bind {ε α β : Type} (a : α) (f : α → Except ε β) :
    (Except.ok a : Except ε α) >>= f = f a := rfl

lemma error_bind {ε α β : Type} (err : ε) (f : α → Except ε β) :
    (Except.error err : Except ε α) >>= f = Except.error err := rfl

lemma parse_fail_of_bad_price (e : ItemElement) (ptxt : String)
    (hp : e.priceEl = some ptxt) (hbad : pyFloat (removeDollar ptxt) = none) :
    (parse_single_product e).isOk = false := by
  cases ht : e.titleEl with
  | none => simp [parse_single_product, ht, ok_bind, error_bind, Except.isOk, Except.toBool]
  | some t =>
      cases hd : e.descriptionEl with
      | none =>
          simp [parse_single_product, ht, hd, ok_bind, error_bind, Except.isOk, Except.toBool]
      | some d =>
          simp [parse_single_product, ht, hd, hp, hbad, ok_bind, error_bind,
            Except.isOk, Except.toBool]

/-- A category that satisfies `CategoryOk` scrapes successfully, returning
exactly its harvested products. -/
lemma scrape_ok_of_categoryOk (w : World) (fuel : Nat) (s : CategorySpec)
    (h : CategoryOk w fuel s) :
    scrape_products w fuel s = Except.ok (categoryProducts w fuel s) := by
  obtain ⟨hl, hh⟩ := h
  unfold scrape_products
  rw [hl]
  simp only [if_true]
  cases hk : clicksFor w fuel s with
  | none =>
      exfalso
      unfold categoryHarvest at hh
      rw [hk] at hh
      simp at hh
  | some k =>
      cases hg : get_single_page_products ((w.pages s.selector).itemsAfter k) with
      | error err =>
          exfalso
          unfold categoryHarvest at hh
          rw [hk] at hh
          simp [hg, Except.toOption] at hh
      | ok ps => simp [categoryProducts, categoryHarvest, hk, hg, Except.toOption]

/-- When every category succeeds, sequential processing writes one file
per category, in declaration order, and finishes without an error. -/
lemma runCategories_all_ok (w : World) (fuel : Nat) (specs : List CategorySpec)
    (h : ∀ s ∈ specs, CategoryOk w fuel s) :
    runCategories w fuel specs =
      (specs.map (fun s => (s.filename, write_products_to_csv (categoryProducts w fuel s))),
        none) := by
  induction specs with
  | nil => rfl
  | cons s rest ih =>
      have hs := scrape_ok_of_categoryOk w fuel s (h s (List.mem_cons_self s rest))
      have ihr := ih (fun x hx => h x (List.mem_cons_of_mem s hx))
      simp [runCategories, hs, ihr]

/-- The run depends on the world only through its pages: the cookie-consent
flag never changes what is scraped or written. -/
lemma runCategories_pages_only (b : Bool) (w : World) (fuel : Nat)
    (specs : List CategorySpec) :
    runCategories ⟨b, w.pages⟩ fuel specs = runCategories w fuel specs := by
  induction specs with
  | nil => rfl
  | cons s rest ih =>
      have hs : scrape_products ⟨b, w.pages⟩ fuel s = scrape_products w fuel s := rfl
      simp only [runCategories, hs, ih]

/-- If some iteration within the fuel window observes a stopping signal,
the pagination loop breaks. -/
lemma loopAux_stops (obs : Nat → Option String) :
    ∀ (fuel c j : Nat), j < fuel → stopsLoop (obs (c + j)) = true →
      ∃ r, loopAux obs c fuel = some r := by
  intro fuel
  induction fuel with
  | zero => intro c j hj _; exact absurd hj (Nat.not_lt_zero j)
  | succ f ih =>
      intro c j hj hs
      by_cases h0 : stopsLoop (obs c) = true
      · exact ⟨c, by simp [loopAux, h0]⟩
      · rw [Bool.not_eq_true] at h0
        cases j with
        | zero => rw [Nat.add_zero] at hs; rw [h0] at hs; exact absurd hs (by simp)
        | succ j2 =>
            have hrec := ih (c + 1) j2 (Nat.lt_of_succ_lt_succ hj) (by
              have hx : c + 1 + j2 = c + (j2 + 1) := by omega
              rw [hx]; exact hs)
            obtain ⟨r, hr⟩ := hrec
            exact ⟨r, by simp [loopAux, h0, hr]⟩

end Scraper

namespace Scraper

/-- C4: the scenario-A item (title attribute `Widget`, description text
`A widget.`, price text `$19.99`, 3 star markers, reviews text
`12 reviews`) extracts to exactly
`Product "Widget" "A widget." 19.99 3 12`. -/
theorem extract_widget_scenario :
    parse_single_product widgetItem = Except.ok widgetProduct := by decide

/-- C1 is false as stated: on a page of N = 2 items where exactly K = 1
(the second) has malformed price text, the harvester does not return the
N − K = 1 successfully extracted product; the `ValueError` escapes the
list comprehension and the whole page harvest fails. -/
theorem harvest_not_failure_isolating :
    get_single_page_products [widgetItem, badPriceItem] =
      Except.error (ExtractionError.valueError "abc")
    ∧ get_single_page_products [widgetItem, badPriceItem] ≠
      Except.ok [widgetProduct] := by
  constructor
  · decide
  · decide

/-- C1 (amended): the harvester is all-or-nothing, not
partial-failure-isolating. If every one of the N items extracts, it
returns all N products in page order; if any item fails field extraction,
the exception propagates and the whole page harvest fails, returning no
products at all (and in particular never a null or zero-filled
substitute). -/
theorem harvest_all_or_nothing (items : List ItemElement) :
    ((∀ i ∈ items, (parse_single_product i).isOk = true) →
      get_single_page_products items =
        Except.ok (items.filterMap (fun i => (parse_single_product i).toOption)))
    ∧ ((∃ i ∈ items, (parse_single_product i).isOk = false) →
      (get_single_page_products items).isOk = false) :=
  ⟨fun h => mapM_parse_all_ok items h,
   fun ⟨_, hi, hf⟩ => mapM_parse_fails hi hf⟩

/-- Witness for the amended C1 at a concrete page: one well-formed and one
malformed item give an aborted harvest, while the well-formed page of the
same two good items yields both products in order. -/
theorem harvest_all_or_nothing_witness :
    (get_single_page_products [widgetItem, badPriceItem]).isOk = false ∧
    get_single_page_products [widgetItem, widgetItem] =
      Except.ok [widgetProduct, widgetProduct] := by
  constructor
  · exact (harvest_all_or_nothing [widgetItem, badPriceItem]).2
      ⟨badPriceItem, by decide, by decide⟩
  · have h := (harvest_all_or_nothing [widgetItem, widgetItem]).1 (by decide)
    rw [h]; decide

/-- C5: an item whose price text leaves a non-numeric remainder after
stripping `$` produces no `Product` at all: extraction of the whole item
fails, the result is never `ok`, and no page containing the item ever
yields a harvested product list for persistence. -/
theorem extract_no_partial_record (e : ItemElement) (ptxt : String)
    (hp : e.priceEl = some ptxt) (hbad : pyFloat (removeDollar ptxt) = none) :
    (∃ err, parse_single_product e = Except.error err)
    ∧ (∀ p, parse_single_product e ≠ Except.ok p)
    ∧ (∀ items ps, e ∈ items → get_single_page_products items ≠ Except.ok ps) := by
  have hf := parse_fail_of_bad_price e ptxt hp hbad
  refine ⟨(except_isOk_false_iff _).mp hf, fun p => except_ne_ok_of_isOk_false hf p, ?_⟩
  intro items ps hmem
  exact except_ne_ok_of_isOk_false (mapM_parse_fails hmem hf) ps

/-- Witness for C5 at the concrete `$abc` item. -/
theorem extract_no_partial_record_witness :
    (∃ err, parse_single_product badPriceItem = Except.error err)
    ∧ (∀ p, parse_single_product badPriceItem ≠ Except.ok p)
    ∧ (∀ items ps, badPriceItem ∈ items →
        get_single_page_products items ≠ Except.ok ps) :=
  extract_no_partial_record badPriceItem "$abc" rfl (by decide)

/-- C10: the number-of-reviews extraction takes the first
whitespace-separated token and parses it as an integer; an empty or
whitespace-only reviews text has no first token, so the indexing itself
raises (`IndexError`) and extraction of the item fails — a failure mode
distinct from a present-but-non-numeric first token (`ValueError`). -/
theorem reviews_index_failure_distinct (e : ItemElement) (t d p rt : String) (q : ℚ)
    (ht : e.titleEl = some t) (hd : e.descriptionEl = some d)
    (hp : e.priceEl = some p) (hq : pyFloat (removeDollar p) = some q)
    (hr : e.reviewsEl = some rt) :
    (pySplit rt = [] →
      parse_single_product e = Except.error ExtractionError.indexError)
    ∧ (∀ tok toks, pySplit rt = tok :: toks → pyInt tok = none →
        parse_single_product e = Except.error (ExtractionError.valueError tok))
    ∧ pySplit "" = [] ∧ pySplit " " = []
    ∧ (∀ tok, ExtractionError.valueError tok ≠ ExtractionError.indexError) := by
  refine ⟨?_, ?_, by decide, by decide, fun tok hc => ExtractionError.noConfusion hc⟩
  · intro hsplit
    simp [parse_single_product, ht, hd, hp, hq, hr, hsplit, ok_bind, error_bind]
  · intro tok toks hsplit hbad
    simp [parse_single_product, ht, hd, hp, hq, hr, hsplit, hbad, ok_bind, error_bind]

/-- Witness for C10 at a whitespace-only reviews text and at a
non-numeric first token. -/
theorem reviews_index_failure_distinct_witness :
    parse_single_product blankReviewsItem = Except.error ExtractionError.indexError
    ∧ parse_single_product
        (ItemElement.mk (some "T") (some "D") (some "$1") 0 (some "abc reviews")) =
      Except.error (ExtractionError.valueError "abc") := by
  constructor
  · exact (reviews_index_failure_distinct blankReviewsItem "T" "D" "$1" " " (mkRat 1 1)
      rfl rfl rfl (by decide) rfl).1 (by decide)
  · exact (reviews_index_failure_distinct
      (ItemElement.mk (some "T") (some "D") (some "$1") 0 (some "abc reviews"))
      "T" "D" "$1" "abc reviews" (mkRat 1 1) rfl rfl rfl (by decide) rfl).2.1
      "abc" ["reviews"] (by decide) (by decide)

/-- C2 is false as stated: the header row the sink writes is the five
dataclass field names, whose fifth is `num_of_reviews`, not
`numOfReviews`; already the file written for the empty product sequence
shows the mismatch. -/
theorem csv_header_name_mismatch :
    headerLine = "title,description,price,rating,num_of_reviews"
    ∧ ¬headerLine = "title,description,price,rating,numOfReviews"
    ∧ (write_products_to_csv []).head? = some (PRODUCT_FIELDS.map CsvValue.str)
    ∧ ¬PRODUCT_FIELDS = ["title", "description", "price", "rating", "numOfReviews"] := by
  refine ⟨by decide, by decide, rfl, by decide⟩

/-- C2 (amended): for every product sequence the sink writes first the
fixed header row `title,description,price,rating,num_of_reviews` (the
five field names in declaration order), then exactly one row per record,
in the order the harvester produced them. -/
theorem csv_write_layout (products : List Product) :
    (write_products_to_csv products).head? = some (PRODUCT_FIELDS.map CsvValue.str)
    ∧ headerLine = "title,description,price,rating,num_of_reviews"
    ∧ (write_products_to_csv products).length = products.length + 1
    ∧ ∀ i, i < products.length →
        (write_products_to_csv products)[i + 1]? = (products[i]?).map astuple := by
  refine ⟨rfl, by decide, by simp [write_products_to_csv], ?_⟩
  intro i hi
  simp [write_products_to_csv]

/-- Witness for C2 (amended) at a one-product sequence. -/
theorem csv_write_layout_witness :
    (write_products_to_csv [widgetProduct])[0 + 1]? = some (astuple widgetProduct) := by
  have h := (csv_write_layout [widgetProduct]).2.2.2 0 (by decide)
  simpa using h

/-- C6: with the affordance present and visible on the first two
iterations and absent on the third, the pagination loop dispatches
exactly two clicks and then stops (reaches the exhausted state); any
larger observation window gives the same outcome. -/
theorem controller_scenario_c :
    paginationClicks twiceThenGone 3 = some 2
    ∧ paginationClicks twiceThenGone 10 = some 2 := by
  constructor
  · decide
  · decide

/-- C7: whenever some iteration would observe the affordance absent or
with computed display hidden, the pagination loop terminates after
finitely many iterations; and if the affordance is not found on the very
first check, it stops at once with zero clicks dispatched. -/
theorem controller_terminates (obs : Nat → Option String) :
    ((∃ k, stopsLoop (obs k) = true) → ∃ fuel c, paginationClicks obs fuel = some c)
    ∧ (obs 0 = none → ∀ fuel, 1 ≤ fuel → paginationClicks obs fuel = some 0) := by
  constructor
  · rintro ⟨k, hk⟩
    obtain ⟨r, hr⟩ := loopAux_stops obs (k + 1) 0 k (Nat.lt_succ_self k) (by simpa using hk)
    exact ⟨k + 1, r, hr⟩
  · intro h0 fuel hf
    cases fuel with
    | zero => exact absurd hf (by omega)
    | succ f => simp [paginationClicks, loopAux, h0, stopsLoop]

/-- Witness for C7: an affordance that is never found stops the loop on
the first check with zero clicks. -/
theorem controller_terminates_witness :
    (∃ fuel c, paginationClicks (fun _ => none) fuel = some c)
    ∧ paginationClicks (fun _ => none) 1 = some 0 :=
  ⟨(controller_terminates (fun _ => none)).1 ⟨0, rfl⟩,
   (controller_terminates (fun _ => none)).2 rfl 1 (le_refl 1)⟩

/-- C3: when every declared category succeeds, the full traversal over the
declaration-ordered CategorySpec list produces exactly the RunResult
mapping — each category's output name paired with the ordered product
sequence extracted for it — accumulated across all six categories (each
entry flushed to its CSV file), and no error. -/
theorem run_returns_accumulated_mapping (w : World) (fuel : Nat)
    (h : ∀ s ∈ categorySpecs, CategoryOk w fuel s) :
    get_all_products w fuel =
      ((runResult w fuel).map (fun entry => (entry.1, write_products_to_csv entry.2)),
        none) := by
  have hr := runCategories_all_ok w fuel categorySpecs h
  simp only [get_all_products, accept_cookies, hr, runResult, List.map_map]
  rfl

/-- Witness for C3 at a world whose six categories all render one
well-formed item. -/
theorem run_returns_accumulated_mapping_witness :
    get_all_products demoWorld 1 =
      ((runResult demoWorld 1).map (fun entry => (entry.1, write_products_to_csv entry.2)),
        none) :=
  run_returns_accumulated_mapping demoWorld 1 (by decide)

/-- C8: a missing category entry element is fatal — the run stops there
with the element-not-found condition and performs no write for that or
any later category — while the cookie-consent affordance's presence or
absence never changes the run's outcome (its exception is caught and only
logged). -/
theorem entry_missing_fatal_cookie_tolerated (w : World) (fuel : Nat)
    (s : CategorySpec) (rest : List CategorySpec) :
    ((w.pages s.selector).linkPresent = false →
      runCategories w fuel (s :: rest) =
        ([], some (RunError.categoryNotFound s.selector)))
    ∧ ∀ b, get_all_products ⟨b, w.pages⟩ fuel = get_all_products w fuel := by
  constructor
  · intro hmiss
    simp [runCategories, scrape_products, hmiss]
  · intro b
    simp [get_all_products, accept_cookies, runCategories_pages_only]

/-- Witness for C8: a world with no entry links fails fatally on the
first category, and flipping the cookie-button flag changes nothing. -/
theorem entry_missing_fatal_cookie_tolerated_witness :
    runCategories noLinkWorld 1
        (CategorySpec.mk "#side-menu a" "home.csv" none :: categorySpecs.tail) =
      ([], some (RunError.categoryNotFound "#side-menu a"))
    ∧ get_all_products ⟨false, noLinkWorld.pages⟩ 1 = get_all_products noLinkWorld 1 := by
  constructor
  · exact (entry_missing_fatal_cookie_tolerated noLinkWorld 1
      (CategorySpec.mk "#side-menu a" "home.csv" none) categorySpecs.tail).1 rfl
  · exact (entry_missing_fatal_cookie_tolerated noLinkWorld 1
      (CategorySpec.mk "" "" none) []).2 false

/-- C9: a category that scrapes successfully has its file written within
its own processing step, and that write is exactly preserved in the run's
output whatever happens to the later categories — including a fatal
failure there; the run is not atomic across categories. -/
theorem category_write_before_next (w : World) (fuel : Nat) (s : CategorySpec)
    (rest : List CategorySpec) (ps : List Product)
    (h : scrape_products w fuel s = Except.ok ps) :
    runCategories w fuel (s :: rest) =
      ((s.filename, write_products_to_csv ps) :: (runCategories w fuel rest).1,
        (runCategories w fuel rest).2) := by
  simp [runCategories, h]

/-- Witness for C9: in `mixedWorld` the first category succeeds and every
later one fails fatally; the first category's file is still written. -/
theorem category_write_before_next_witness :
    runCategories mixedWorld 1 categorySpecs =
      (("home.csv", write_products_to_csv [widgetProduct]) ::
          (runCategories mixedWorld 1 categorySpecs.tail).1,
        (runCategories mixedWorld 1 categorySpecs.tail).2) :=
  category_write_before_next mixedWorld 1
    (CategorySpec.mk "#side-menu a" "home.csv" none)
    categorySpecs.tail [widgetProduct] (by decide)

end Scraper
